import Mathlib

/-!
Verification development for the Advanced-RAG orchestration graph.

The definitions below are a shallow embedding of the control-flow core of the
repository: the data model (`src/graph/state.py`), the graph nodes
(`src/graph/nodes/…`), the routing / grading decision functions and the graph
wiring (`src/graph/graph.py`), and the generation-chain construction
(`src/graph/chains/generation.py`).  External collaborators (the classifier,
the retriever, the relevance grader, the hallucination grader, the web-search
tool and the generation model) are black boxes in the repository; they are
embedded as oracle parameters returning `Except String _` where an `error`
models a raised Python exception.
-/

namespace ARAG

/-- The langchain `Document` value as used by the repository: a text
`page_content` plus a string-keyed metadata mapping. -/
structure Document where
  page_content : String
  metadata : List (String × String)
  deriving Repr, DecidableEq

/-- The `RouteQuery.datasource` literal of `src/graph/chains/router.py`:
`Literal["vectorstore", "websearch"]`. -/
inductive Datasource where
  | vectorstore
  | websearch
  deriving Repr, DecidableEq

/-- Node-name constant from `src/config.py` (`RETRIEVE = "retrieve"`); the
`graph.const` module imported by `src/graph/graph.py` re-exports these
node-name constants. -/
def RETRIEVE : String := "retrieve"

/-- Node-name constant from `src/config.py` (`GRADE_DOCUMENTS = "grade_documents"`). -/
def GRADE_DOCUMENTS : String := "grade_documents"

/-- Node-name constant from `src/config.py` (`GENERATE = "generate"`). -/
def GENERATE : String := "generate"

/-- Node-name constant from `src/config.py` (`WEBSEARCH = "websearch"`). -/
def WEBSEARCH : String := "websearch"

/-- `MAX_RETRIES = int(os.getenv("MAX_RETRIES", "3"))` from `src/config.py`
line 22, at its default value.  Nothing else in the repository reads this
constant. -/
def MAX_RETRIES : Nat := 3

/-- The `GraphState` TypedDict of `src/graph/state.py`.  langgraph turns each
declared key into a state channel; a field value `none` models a channel that
has not been written yet (such a key is absent from the dict a node receives
and from the dict `app.invoke` returns).  The schema has exactly the five keys
`question`, `generation`, `web_search`, `documents`, `tries` - in particular
there is no `route` key. -/
structure GraphState where
  question : Option String
  generation : Option String
  web_search : Option Bool
  documents : Option (List Document)
  tries : Option Int
  deriving Repr, DecidableEq

/-- A dict returned by a graph node, seen as a partial update: a field is
`some v` exactly when the corresponding key is present in the returned dict.
`route` is included because `route_question` returns a dict with that key,
even though `route` is not part of the `GraphState` schema. -/
structure NodeUpdate where
  question : Option String := none
  generation : Option String := none
  web_search : Option Bool := none
  documents : Option (List Document) := none
  tries : Option Int := none
  route : Option String := none
  deriving Repr, DecidableEq

/-- One channel write: a key present in the returned dict overwrites the
channel, an absent key leaves it untouched (langgraph maps each schema key `k`
to `input.get(k, SKIP_WRITE)`). -/
def updCh {α : Type} (u s : Option α) : Option α :=
  match u with
  | some v => some v
  | none => s

/-- langgraph applies a node update per schema key of `GraphState`.  The
`route` key of the update is dropped: it is not a schema channel, and
langgraph only ever writes schema channels. -/
def applyUpdate (s : GraphState) (u : NodeUpdate) : GraphState :=
  { question := updCh u.question s.question
    generation := updCh u.generation s.generation
    web_search := updCh u.web_search s.web_search
    documents := updCh u.documents s.documents
    tries := updCh u.tries s.tries }

/-- The classifier collaborator (`question_router.invoke`): maps a question to
a datasource, or raises. -/
abbrev RouterOracle := String → Except String Datasource

/-- The retriever collaborator (`retriever.invoke`): maps a question to a
document list, or raises. -/
abbrev RetrieverOracle := String → Except String (List Document)

/-- The relevance-grader collaborator (`retrieval_grader.invoke`): maps
(question, document content) to the `binary_score` string, or raises. -/
abbrev GraderOracle := String → String → Except String String

/-- The hallucination-grader collaborator (`hallucination_grader.invoke`):
maps (documents, generation) to the boolean `binary_score`, or raises. -/
abbrev HallucinationOracle := List Document → String → Except String Bool

/-- The web-search collaborator (`TavilySearch.invoke` plus the extraction of
the result snippet contents): maps a query to the list of snippet content
strings, or raises. -/
abbrev SearchTool := String → Except String (List String)

/-- Python `str.lower` for the grader output (`grade.lower()`): lower-case
every character. -/
def pyLower (s : String) : String :=
  ⟨s.data.map Char.toLower⟩

/-- `route_question` (src/graph/graph.py lines 70-100): the ROUTE node.
Reads `state.get("question", "")`; on empty question, classifier error or a
`vectorstore` verdict it returns `{"route": RETRIEVE}`, otherwise
`{"route": WEBSEARCH}`.  The returned dict contains only the `route` key. -/
def route_question (router : RouterOracle) (state : GraphState) : NodeUpdate :=
  let question := state.question.getD ""
  if question = "" then { route := some RETRIEVE }
  else
    match router question with
    | .ok .vectorstore => { route := some RETRIEVE }
    | .ok .websearch => { route := some WEBSEARCH }
    | .error _ => { route := some RETRIEVE }

/-- `route_question_conditional` (src/graph/graph.py lines 103-126): the
conditional-edge function attached to the ROUTE node.  It re-invokes the
classifier and returns the name of the next node. -/
def route_question_conditional (router : RouterOracle) (state : GraphState) : String :=
  let question := state.question.getD ""
  if question = "" then RETRIEVE
  else
    match router question with
    | .ok .vectorstore => RETRIEVE
    | .ok .websearch => WEBSEARCH
    | .error _ => RETRIEVE

/-- `retrieve` (src/graph/nodes/retrieve.py): on empty question returns
`{"documents": [], "question": ""}`; on retriever error the `except` branch
returns `{"documents": [], "question": state.get("question", "")}`; otherwise
the retrieved documents. -/
def retrieve (retr : RetrieverOracle) (state : GraphState) : NodeUpdate :=
  let question := state.question.getD ""
  if question = "" then { documents := some [], question := some "" }
  else
    match retr question with
    | .ok docs => { documents := some docs, question := some question }
    | .error _ => { documents := some [], question := some question }

/-- The grading loop of `grade_documents` (src/graph/nodes/grade_documents.py
lines 27-38): grade each document in order; a `yes` grade (after `.lower()`)
appends the document to `filtered_docs`, any other grade sets
`web_search = True`; a grader exception aborts the whole loop (it is caught
only by the except clause around the entire function body). -/
def gradeLoop (grader : GraderOracle) (question : String) :
    List Document → Except String (List Document × Bool)
  | [] => .ok ([], false)
  | d :: ds =>
    match grader question d.page_content with
    | .error e => .error e
    | .ok grade =>
      match gradeLoop grader question ds with
      | .error e => .error e
      | .ok (filtered, ws) =>
        if pyLower grade = "yes" then .ok (d :: filtered, ws)
        else .ok (filtered, true)

/-- `grade_documents` (src/graph/nodes/grade_documents.py): reads
`state["question"]` and `state["documents"]` inside the try block.  A missing
`question` key raises a KeyError that the except handler re-triggers (it also
evaluates `state["question"]`), so the node itself raises.  A missing
`documents` key or any grader exception is caught and yields
`{"documents": [], "question": question, "web_search": True}`.  With no
exception the result carries the filtered documents and the computed flag
(initialized `False`). -/
def grade_documents (grader : GraderOracle) (state : GraphState) :
    Except String NodeUpdate :=
  match state.question with
  | none => .error "KeyError: question"
  | some question =>
    match state.documents with
    | none =>
      .ok { documents := some [], question := some question, web_search := some true }
    | some documents =>
      match gradeLoop grader question documents with
      | .ok (filtered, ws) =>
        .ok { documents := some filtered, question := some question, web_search := some ws }
      | .error _ =>
        .ok { documents := some [], question := some question, web_search := some true }

/-- `decide_to_generate` (src/graph/graph.py lines 34-42): branch on
`state.get("web_search", False)`. -/
def decide_to_generate (state : GraphState) : String :=
  if state.web_search.getD false then WEBSEARCH else GENERATE

/-- `web_search` (src/graph/nodes/web_search.py): `tool = none` models
`_build_web_search_tool()` returning `None` (no TAVILY_API_KEY or failed
import); in that case the node returns `{"documents": documents or [], ...,
"web_search": True}`.  With a tool, a successful call joins the snippet
contents with a newline into one `Document` appended last (fresh one-element
list when the `documents` key was absent); a raised exception is caught and
the except branch returns `{"documents": [], ..., "web_search": True}`.
A missing `question` key raises (the except handler evaluates
`state["question"]` again). -/
def web_search (tool : Option SearchTool) (state : GraphState) :
    Except String NodeUpdate :=
  match state.question with
  | none => .error "KeyError: question"
  | some question =>
    let documents := state.documents
    match tool with
    | none =>
      .ok { documents := some (documents.getD []), question := some question,
            web_search := some true }
    | some f =>
      match f question with
      | .ok contents =>
        let webDoc : Document :=
          { page_content := String.intercalate "\n" contents, metadata := [] }
        let docs2 :=
          match documents with
          | some ds => ds ++ [webDoc]
          | none => [webDoc]
        .ok { documents := some docs2, question := some question,
              web_search := some true }
      | .error _ =>
        .ok { documents := some [], question := some question,
              web_search := some true }

/-- The fixed string returned by `_fallback_answer` in
`src/graph/chains/generation.py`. -/
def fallbackAnswer : String :=
  "Missing Gemini API key. Set GOOGLE_API_KEY or GEMINI_API_KEY to enable generation.\nReturned without calling an LLM."

/-- The value bound to `generation_chain`: either an LCEL runnable
(`prompt | llm | StrOutputParser()`) or, when `_build_llm()` returns `None`
(no GOOGLE_API_KEY / GEMINI_API_KEY), the bare Python function
`_fallback_answer`. -/
inductive GenChain where
  | runnable (f : String → List Document → Except String String)
  | plainFn (f : String → List Document → String)
  deriving Inhabited

/-- `_get_generation_chain` (src/graph/chains/generation.py lines 41-47):
with no llm it returns the bare function `_fallback_answer`, otherwise the
LCEL runnable built from the prompt and the llm. -/
def get_generation_chain
    (llm : Option (String → List Document → Except String String)) : GenChain :=
  match llm with
  | none => .plainFn (fun _ _ => fallbackAnswer)
  | some f => .runnable f

/-- Evaluating `generation_chain.invoke({...})`: an LCEL runnable has an
`invoke` method; a bare Python function does not, so the attribute access
raises AttributeError before the function body can run. -/
def invokeChain (c : GenChain) (question : String) (docs : List Document) :
    Except String String :=
  match c with
  | .runnable f => f question docs
  | .plainFn _ => .error "AttributeError: function object has no attribute invoke"

/-- `generate` (src/graph/nodes/generate.py lines 46-56): reads
`state["question"]` and `state["documents"]` outside any try block (a missing
key raises), calls `generation_chain.invoke`, and wraps any exception in a
raised `RuntimeError("Generation chain failed: ...")` carrying the cause.  On
success it returns documents, question, the generation and the pass-through
`state.get("web_search", False)`; the returned dict has no `tries` key. -/
def generate (chain : GenChain) (state : GraphState) : Except String NodeUpdate :=
  match state.question with
  | none => .error "KeyError: question"
  | some question =>
    match state.documents with
    | none => .error "KeyError: documents"
    | some documents =>
      match invokeChain chain question documents with
      | .ok generation =>
        .ok { documents := some documents, question := some question,
              generation := some generation,
              web_search := some (state.web_search.getD false) }
      | .error e => .error ("Generation chain failed: " ++ e)

/-- `grade_generation_grounded_in_documents_and_question`
(src/graph/graph.py lines 44-68): with missing or empty documents or
generation, with a grader exception, or with a `False` score it returns
`"not supported"`; only a `True` score yields `"useful"`. -/
def grade_generation_grounded_in_documents_and_question
    (hg : HallucinationOracle) (state : GraphState) : String :=
  let documents := state.documents.getD []
  let generation := state.generation.getD ""
  if documents.isEmpty ∨ generation = "" then "not supported"
  else
    match hg documents generation with
    | .ok true => "useful"
    | .ok false => "not supported"
    | .error _ => "not supported"

/-- The state seeded by `app.invoke({"question": question})`: only the
`question` channel is written. -/
def initState (q : String) : GraphState :=
  { question := some q, generation := none, web_search := none,
    documents := none, tries := none }

/-- The GENERATE / grounding-check cycle wired by
`workflow.add_conditional_edges(GENERATE, grade_generation_grounded_in_documents_and_question,
{"not supported": GENERATE, "useful": END})` (src/graph/graph.py line 152).
The graph has no bound of its own on this cycle: `fuel` only models the
langgraph recursion limiter cutting an execution off, and `attempts` counts
the `generate` invocations made so far.  `ok (some s, n)` is a run that
reached END after `n` generation attempts; `ok (none, n)` is a run still
looping when the fuel ran out, after `n` attempts. -/
def genLoop (chain : GenChain) (hg : HallucinationOracle) :
    Nat → GraphState → Nat → Except String (Option GraphState × Nat)
  | 0, _, attempts => .ok (none, attempts)
  | fuel + 1, s, attempts =>
    match generate chain s with
    | .error e => .error e
    | .ok u =>
      let s2 := applyUpdate s u
      if grade_generation_grounded_in_documents_and_question hg s2 = "useful" then
        .ok (some s2, attempts + 1)
      else
        genLoop chain hg fuel s2 (attempts + 1)

/-- The compiled graph of src/graph/graph.py lines 129-154, run on one
question: entry node ROUTE (`route_question`), conditional edge
`route_question_conditional` to RETRIEVE or WEBSEARCH, the fixed edges
RETRIEVE to GRADE_DOCUMENTS and WEBSEARCH to GENERATE, the conditional edge
`decide_to_generate`, and the GENERATE / grounding cycle.  The classifier is
invoked twice - `router1` serves the ROUTE node itself, `router2` the
conditional edge - mirroring the two separate `question_router.invoke` calls.
An uncaught node exception aborts `app.invoke`, modeled as `error`. -/
def runPipeline (router1 router2 : RouterOracle) (retr : RetrieverOracle)
    (grader : GraderOracle) (tool : Option SearchTool) (chain : GenChain)
    (hg : HallucinationOracle) (fuel : Nat) (q : String) :
    Except String (Option GraphState × Nat) :=
  let s0 := initState q
  let s1 := applyUpdate s0 (route_question router1 s0)
  if route_question_conditional router2 s1 = WEBSEARCH then
    match web_search tool s1 with
    | .error e => .error e
    | .ok u => genLoop chain hg fuel (applyUpdate s1 u) 0
  else
    let s2 := applyUpdate s1 (retrieve retr s1)
    match grade_documents grader s2 with
    | .error e => .error e
    | .ok u =>
      let s3 := applyUpdate s2 u
      if decide_to_generate s3 = WEBSEARCH then
        match web_search tool s3 with
        | .error e => .error e
        | .ok u2 => genLoop chain hg fuel (applyUpdate s3 u2) 0
      else
        genLoop chain hg fuel s3 0

/-- The branch the conditional edge actually takes for a question (the state
it inspects is the entry state: the ROUTE node write is dropped, see
`applyUpdate_route_question`). -/
def executedBranch (router2 : RouterOracle) (q : String) : String :=
  route_question_conditional router2 (initState q)

/-- The document list the RETRIEVE node writes for a question (empty question
and retriever error both yield the empty list). -/
def retrievedDocs (retr : RetrieverOracle) (q : String) : List Document :=
  if q = "" then []
  else
    match retr q with
    | .ok docs => docs
    | .error _ => []

/-- The RelevanceFilter dropped at least one document: some document was
graded non-yes, or the grading loop aborted on a grader exception (in which
case every document under grading was discarded). -/
def filterDropped (grader : GraderOracle) (q : String) (docs : List Document) : Bool :=
  match gradeLoop grader q docs with
  | .ok (_, ws) => ws
  | .error _ => true

/-- A document the grader marks relevant: the grader returns a grade whose
lower-casing is `yes`. -/
def gradedRelevant (grader : GraderOracle) (q : String) (d : Document) : Bool :=
  match grader q d.page_content with
  | .ok grade => decide (pyLower grade = "yes")
  | .error _ => false

/-- The dict returned by `route_question` carries only the `route` key, which
is not a `GraphState` channel, so applying it leaves the state unchanged. -/
theorem applyUpdate_route_question (r : RouterOracle) (s : GraphState) :
    applyUpdate s (route_question r s) = s := by
  simp only [route_question]
  split
  · rfl
  · split <;> rfl

/-- Shape of a successful `generate`: the node requires the `question` and
`documents` keys, a successful chain call, and returns exactly the four keys
documents / question / generation / web_search. -/
theorem generate_ok {chain : GenChain} {s : GraphState} {u : NodeUpdate}
    (h : generate chain s = .ok u) :
    ∃ q ds g, s.question = some q ∧ s.documents = some ds ∧
      invokeChain chain q ds = .ok g ∧
      u = { documents := some ds, question := some q, generation := some g,
            web_search := some (s.web_search.getD false) } := by
  unfold generate at h
  split at h
  · exact absurd h (by simp)
  · rename_i q hq
    split at h
    · exact absurd h (by simp)
    · rename_i ds hd
      split at h
      · rename_i g hg
        exact ⟨q, ds, g, hq, hd, hg, by injection h with h2; exact h2.symm⟩
      · exact absurd h (by simp)

/-- A `useful` grounding verdict needs a nonempty document list, a nonempty
generation, and a `True` grader score. -/
theorem grade_generation_useful {hg : HallucinationOracle} {s : GraphState}
    (h : grade_generation_grounded_in_documents_and_question hg s = "useful") :
    ¬ s.documents.getD [] = [] ∧ ¬ s.generation.getD "" = "" := by
  simp only [grade_generation_grounded_in_documents_and_question] at h
  split at h
  · exact absurd h (by simp)
  · rename_i hcond
    push_neg at hcond
    exact ⟨by simpa [List.isEmpty_iff] using hcond.1, hcond.2⟩

/-- Invariants of a run of the GENERATE / grounding cycle that reached END:
the final state keeps the web_search flag, the documents (necessarily
nonempty) and the tries channel of the state that entered the cycle, and
carries a generation. -/
theorem genLoop_ok_some {chain : GenChain} {hg : HallucinationOracle}
    {fuel a n : Nat} {s f : GraphState}
    (h : genLoop chain hg fuel s a = .ok (some f, n)) :
    f.web_search = some (s.web_search.getD false) ∧
    (∃ ds, s.documents = some ds ∧ ds ≠ [] ∧ f.documents = some ds) ∧
    f.tries = s.tries ∧ f.question = s.question ∧ f.generation.isSome := by
  induction fuel generalizing s a with
  | zero => simp [genLoop] at h
  | succ fuel ih =>
    simp only [genLoop] at h
    split at h
    · exact absurd h (by simp)
    · rename_i u hu
      obtain ⟨q, ds, g, hq, hd, hich, rfl⟩ := generate_ok hu
      split at h
      · rename_i huseful
        have hne := (grade_generation_useful huseful).1
        injection h with h2
        injection h2 with ha hb
        injection ha with hf
        subst hf
        refine ⟨by simp [applyUpdate, updCh], ⟨ds, hd, ?_, by simp [applyUpdate, updCh]⟩,
          by simp [applyUpdate, updCh], by simp [applyUpdate, updCh, hq], by simp [applyUpdate, updCh]⟩
        intro hds
        exact hne (by simp [applyUpdate, updCh, hds])
      · obtain ⟨h1, ⟨ds2, hds2, hne2, hf2⟩, h3, h4, h5⟩ := ih h
        have hds2eq : ds2 = ds := by
          simp [applyUpdate, updCh] at hds2
          exact hds2.symm ▸ rfl
        refine ⟨?_, ⟨ds, hd, hds2eq ▸ hne2, hds2eq ▸ hf2⟩, ?_, ?_, h5⟩
        · simpa [applyUpdate, updCh] using h1
        · simpa [applyUpdate, updCh] using h3
        · rw [h4]; simp [applyUpdate, updCh, hq]

/-- With a grounding verdict that is never a `True` score, the
GENERATE / grounding cycle never produces `useful`. -/
theorem grade_generation_ne_useful {hg : HallucinationOracle}
    (hhg : ∀ ds g, hg ds g ≠ .ok true) (s : GraphState) :
    grade_generation_grounded_in_documents_and_question hg s ≠ "useful" := by
  simp only [grade_generation_grounded_in_documents_and_question]
  split
  · simp
  · split
    · rename_i hcall
      exact absurd hcall (hhg _ _)
    · simp
    · simp

/-- With a generation chain that always succeeds and a grounding verdict that
is never a `True` score, the GENERATE / grounding cycle runs forever: all the
fuel is consumed, one generation attempt per unit, and END is never
reached. -/
theorem genLoop_not_grounded {chain : GenChain} {hg : HallucinationOracle}
    (hchain : ∀ q ds, ∃ g, invokeChain chain q ds = .ok g)
    (hhg : ∀ ds g, hg ds g ≠ .ok true) :
    ∀ (fuel a : Nat) (s : GraphState), s.question.isSome → s.documents.isSome →
      genLoop chain hg fuel s a = .ok (none, a + fuel) := by
  intro fuel
  induction fuel with
  | zero => intro a s _ _; simp [genLoop]
  | succ fuel ih =>
    intro a s hq hd
    obtain ⟨q, hq'⟩ := Option.isSome_iff_exists.mp hq
    obtain ⟨ds, hd'⟩ := Option.isSome_iff_exists.mp hd
    obtain ⟨g, hg'⟩ := hchain q ds
    have hgen : generate chain s = .ok
        { documents := some ds, question := some q, generation := some g,
          web_search := some (s.web_search.getD false) } := by
      simp only [generate, hq', hd', hg']
    simp only [genLoop, hgen]
    rw [if_neg (grade_generation_ne_useful hhg _)]
    rw [ih (a + 1) _ (by simp [applyUpdate, updCh]) (by simp [applyUpdate, updCh])]
    congr 2
    omega

/-- If the grading loop finishes with `web_search = False` then no document
was dropped: the filtered list is the whole input. -/
theorem gradeLoop_ok_false {grader : GraderOracle} {q : String} :
    ∀ {ds f : List Document}, gradeLoop grader q ds = .ok (f, false) → f = ds := by
  intro ds
  induction ds with
  | nil =>
    intro f h
    simp only [gradeLoop] at h
    injection h with h2
    injection h2 with ha hb
    exact ha.symm
  | cons d ds ih =>
    intro f h
    simp only [gradeLoop] at h
    split at h
    · exact absurd h (by simp)
    · split at h
      · exact absurd h (by simp)
      · rename_i filtered ws hrec
        split at h
        · injection h with h2
          injection h2 with ha hb
          subst hb
          rw [ih hrec] at ha
          exact ha.symm
        · injection h with h2
          injection h2 with ha hb
          exact absurd hb (by simp)

/-- When the grader answers on every document, the grading loop returns
exactly the relevant documents, filtered in order, plus the
some-document-was-dropped flag. -/
theorem gradeLoop_total {grader : GraderOracle} {q : String} :
    ∀ {docs : List Document}, (∀ d ∈ docs, ∃ g, grader q d.page_content = .ok g) →
      gradeLoop grader q docs =
        .ok (docs.filter (gradedRelevant grader q),
             docs.any (fun d => !gradedRelevant grader q d)) := by
  intro docs
  induction docs with
  | nil => intro _; simp [gradeLoop]
  | cons d ds ih =>
    intro h
    obtain ⟨g, hg⟩ := h d (List.mem_cons_self d ds)
    have ihh := ih (fun d2 hd2 => h d2 (List.mem_cons_of_mem _ hd2))
    simp only [gradeLoop, hg, ihh]
    by_cases hyes : pyLower g = "yes"
    · simp [List.filter_cons, List.any_cons, gradedRelevant, hg, hyes]
    · simp [List.filter_cons, List.any_cons, gradedRelevant, hg, hyes]

/-- The WEBSEARCH node never raises when the state has a question: it returns
some document list together with the question and a `web_search = True`
flag. -/
theorem web_search_ok {tool : Option SearchTool} {s : GraphState} {q : String}
    (hq : s.question = some q) :
    ∃ D, web_search tool s =
      .ok { documents := some D, question := some q, web_search := some true } := by
  cases tool with
  | none => exact ⟨s.documents.getD [], by simp [web_search, hq]⟩
  | some f =>
    cases hf : f q with
    | ok contents =>
      cases hd : s.documents with
      | none =>
        exact ⟨[⟨String.intercalate "\n" contents, []⟩], by simp [web_search, hq, hf, hd]⟩
      | some ds =>
        exact ⟨ds ++ [⟨String.intercalate "\n" contents, []⟩], by simp [web_search, hq, hf, hd]⟩
    | error e => exact ⟨[], by simp [web_search, hq, hf]⟩

/-- On the entry state the RETRIEVE node writes back the question and exactly
the `retrievedDocs` list. -/
theorem retrieve_init (retr : RetrieverOracle) (q : String) :
    retrieve retr (initState q) =
      { documents := some (retrievedDocs retr q), question := some q } := by
  unfold retrieve retrievedDocs initState
  simp only [Option.getD_some]
  split
  · rename_i hq
    subst hq
    rfl
  · split <;> rfl

/-- Characterization of a full run that reached END: the shape of the final
state (question preserved, a generation and a nonempty document list present,
`tries` never written) and the exact value of the `web_search` flag. -/
theorem runPipeline_terminal {router1 router2 : RouterOracle} {retr : RetrieverOracle}
    {grader : GraderOracle} {tool : Option SearchTool} {chain : GenChain}
    {hg : HallucinationOracle} {fuel n : Nat} {q : String} {final : GraphState}
    (h : runPipeline router1 router2 retr grader tool chain hg fuel q = .ok (some final, n)) :
    final.question = some q ∧ final.generation.isSome ∧ final.documents.isSome ∧
    final.tries = none ∧ final.web_search.isSome ∧
    (final.web_search = some true ↔
      (executedBranch router2 q = WEBSEARCH ∨
       filterDropped grader q (retrievedDocs retr q) = true ∨
       retrievedDocs retr q = [])) := by
  simp only [runPipeline, applyUpdate_route_question] at h
  by_cases hbranch : route_question_conditional router2 (initState q) = WEBSEARCH
  · rw [if_pos hbranch] at h
    obtain ⟨D, hws⟩ := @web_search_ok tool (initState q) q rfl
    simp only [hws] at h
    have hsW : applyUpdate (initState q)
        { documents := some D, question := some q, web_search := some true } =
        (⟨some q, none, some true, some D, none⟩ : GraphState) := by
      simp [applyUpdate, updCh, initState]
    rw [hsW] at h
    obtain ⟨h1, ⟨ds, hds, hne, hfd⟩, h3, h4, h5⟩ := genLoop_ok_some h
    refine ⟨h4, h5, by rw [hfd]; rfl, h3, by rw [h1]; rfl, ?_⟩
    simp only [Option.getD_some] at h1
    exact ⟨fun _ => Or.inl (by simpa [executedBranch] using hbranch), fun _ => h1⟩
  · rw [if_neg hbranch] at h
    rw [retrieve_init] at h
    have hs2 : applyUpdate (initState q)
        { documents := some (retrievedDocs retr q), question := some q } =
        (⟨some q, none, none, some (retrievedDocs retr q), none⟩ : GraphState) := by
      simp [applyUpdate, updCh, initState]
    rw [hs2] at h
    cases hloop : gradeLoop grader q (retrievedDocs retr q) with
    | ok pair =>
      obtain ⟨filtered, ws⟩ := pair
      have hgd : grade_documents grader
          (⟨some q, none, none, some (retrievedDocs retr q), none⟩ : GraphState) =
          .ok { documents := some filtered, question := some q, web_search := some ws } := by
        simp [grade_documents, hloop]
      simp only [hgd] at h
      have hs3 : applyUpdate (⟨some q, none, none, some (retrievedDocs retr q), none⟩ : GraphState)
          { documents := some filtered, question := some q, web_search := some ws } =
          (⟨some q, none, some ws, some filtered, none⟩ : GraphState) := by
        simp [applyUpdate, updCh]
      rw [hs3] at h
      cases ws with
      | true =>
        have hdec : decide_to_generate
            (⟨some q, none, some true, some filtered, none⟩ : GraphState) = WEBSEARCH := by
          simp [decide_to_generate]
        rw [if_pos hdec] at h
        obtain ⟨D, hws⟩ :=
          @web_search_ok tool (⟨some q, none, some true, some filtered, none⟩ : GraphState) q rfl
        simp only [hws] at h
        have hs4 : applyUpdate (⟨some q, none, some true, some filtered, none⟩ : GraphState)
            { documents := some D, question := some q, web_search := some true } =
            (⟨some q, none, some true, some D, none⟩ : GraphState) := by
          simp [applyUpdate, updCh]
        rw [hs4] at h
        obtain ⟨h1, ⟨ds, hds, hne, hfd⟩, h3, h4, h5⟩ := genLoop_ok_some h
        refine ⟨h4, h5, by rw [hfd]; rfl, h3, by rw [h1]; rfl, ?_⟩
        simp only [Option.getD_some] at h1
        refine ⟨fun _ => Or.inr (Or.inl ?_), fun _ => h1⟩
        simp [filterDropped, hloop]
      | false =>
        have hdec : decide_to_generate
            (⟨some q, none, some false, some filtered, none⟩ : GraphState) = GENERATE := by
          simp [decide_to_generate]
        have hdecne : ¬ decide_to_generate
            (⟨some q, none, some false, some filtered, none⟩ : GraphState) = WEBSEARCH := by
          rw [hdec]
          simp [GENERATE, WEBSEARCH]
        rw [if_neg hdecne] at h
        obtain ⟨h1, ⟨ds, hds, hne, hfd⟩, h3, h4, h5⟩ := genLoop_ok_some h
        refine ⟨h4, h5, by rw [hfd]; rfl, h3, by rw [h1]; rfl, ?_⟩
        simp only [Option.getD_some] at h1
        have hdsf : ds = filtered := by
          injection hds with hds2
          exact hds2.symm
        have hRds : filtered = retrievedDocs retr q := gradeLoop_ok_false hloop
        constructor
        · intro htrue
          rw [h1] at htrue
          exact absurd htrue (by simp)
        · intro hRHS
          rcases hRHS with hA | hB | hC
          · exact absurd hA (by simpa [executedBranch] using hbranch)
          · rw [filterDropped, hloop] at hB
            exact absurd hB (by simp)
          · rw [← hRds] at hC
            exact absurd hC (hdsf ▸ hne)
    | error e =>
      have hgd : grade_documents grader
          (⟨some q, none, none, some (retrievedDocs retr q), none⟩ : GraphState) =
          .ok { documents := some [], question := some q, web_search := some true } := by
        simp [grade_documents, hloop]
      simp only [hgd] at h
      have hs3 : applyUpdate (⟨some q, none, none, some (retrievedDocs retr q), none⟩ : GraphState)
          { documents := some [], question := some q, web_search := some true } =
          (⟨some q, none, some true, some [], none⟩ : GraphState) := by
        simp [applyUpdate, updCh]
      rw [hs3] at h
      have hdec : decide_to_generate
          (⟨some q, none, some true, some [], none⟩ : GraphState) = WEBSEARCH := by
        simp [decide_to_generate]
      rw [if_pos hdec] at h
      obtain ⟨D, hws⟩ :=
        @web_search_ok tool (⟨some q, none, some true, some [], none⟩ : GraphState) q rfl
      simp only [hws] at h
      have hs4 : applyUpdate (⟨some q, none, some true, some [], none⟩ : GraphState)
          { documents := some D, question := some q, web_search := some true } =
          (⟨some q, none, some true, some D, none⟩ : GraphState) := by
        simp [applyUpdate, updCh]
      rw [hs4] at h
      obtain ⟨h1, ⟨ds, hds, hne, hfd⟩, h3, h4, h5⟩ := genLoop_ok_some h
      refine ⟨h4, h5, by rw [hfd]; rfl, h3, by rw [h1]; rfl, ?_⟩
      simp only [Option.getD_some] at h1
      refine ⟨fun _ => Or.inr (Or.inl ?_), fun _ => h1⟩
      simp [filterDropped, hloop]

/-- Fixture: a classifier that always picks web search. -/
def routerWeb : RouterOracle := fun _ => .ok .websearch

/-- Fixture: a classifier that always picks the vectorstore. -/
def routerKB : RouterOracle := fun _ => .ok .vectorstore

/-- Fixture: a retriever returning one fixed document. -/
def retrOne : RetrieverOracle := fun _ => .ok [⟨"docA", []⟩]

/-- Fixture: a relevance grader marking every document relevant. -/
def graderYes : GraderOracle := fun _ _ => .ok "yes"

/-- Fixture: a relevance grader that raises on the content `bad1` and grades
everything else relevant. -/
def graderBoom : GraderOracle := fun _ c => if c = "bad1" then .error "boom" else .ok "yes"

/-- Fixture: a relevance grader keeping content `keep` (graded `Yes`) and
rejecting everything else (graded `no`). -/
def graderMix : GraderOracle := fun _ c => if c = "keep" then .ok "Yes" else .ok "no"

/-- Fixture: a working web-search tool returning two snippets. -/
def toolTwo : SearchTool := fun _ => .ok ["snippet one", "snippet two"]

/-- Fixture: a web-search tool whose call raises. -/
def toolDown : SearchTool := fun _ => .error "down"

/-- Fixture: a generation chain built over a working llm. -/
def chainOk : GenChain := .runnable (fun _ _ => .ok "answer")

/-- Fixture: a grounding grader that always reports grounded. -/
def hgTrue : HallucinationOracle := fun _ _ => .ok true

/-- Fixture: a grounding grader that never reports grounded. -/
def hgFalse : HallucinationOracle := fun _ _ => .ok false

/-- Fixture: a state holding a question and one document. -/
def sQD : GraphState := ⟨some "q", none, none, some [⟨"d", []⟩], none⟩

/-- C1: the claim says the GENERATE / validate loop performs at most
`MAX_RETRIES + 1` generation attempts and then moves to DONE with a
low-confidence marker.  The code has no such bound: the conditional edge of
src/graph/graph.py line 152 maps every `not supported` verdict straight back
to GENERATE, and no node reads `tries` or `MAX_RETRIES`.  This theorem shows
that with a grounding verdict that is never `grounded` the loop is still
running after `MAX_RETRIES + 1 + k` generation attempts, for every `k`: it
consumes all its fuel, makes one attempt per unit of fuel, and never reaches
END. -/
theorem c1_generate_validate_loop_never_terminates
    (chain : GenChain) (hg : HallucinationOracle) (s : GraphState)
    (hchain : ∀ q ds, ∃ g, invokeChain chain q ds = .ok g)
    (hhg : ∀ ds g, hg ds g ≠ .ok true)
    (hq : s.question.isSome) (hd : s.documents.isSome) :
    ∀ k : Nat, genLoop chain hg (MAX_RETRIES + 1 + k) s 0 =
      .ok (none, MAX_RETRIES + 1 + k) := by
  intro k
  simpa using genLoop_not_grounded hchain hhg (MAX_RETRIES + 1 + k) 0 s hq hd

/-- C1 witness: concrete unbounded looping, one step beyond the claimed
budget. -/
theorem c1_generate_validate_loop_never_terminates_witness :
    genLoop chainOk hgFalse (MAX_RETRIES + 1 + 1) sQD 0 =
      .ok (none, MAX_RETRIES + 1 + 1) :=
  c1_generate_validate_loop_never_terminates chainOk hgFalse sQD
    (fun _ _ => ⟨"answer", rfl⟩) (fun _ _ => by simp [hgFalse]) rfl rfl 1

/-- C2 counterexample: `grade_documents` on an empty document sequence
reports `web_search = False`, not `True` as the claim states (the for loop
never runs, so the flag keeps its `False` initialization). -/
theorem c2_empty_documents_web_search_false :
    grade_documents graderYes (⟨some "q", none, none, some [], none⟩ : GraphState) =
      .ok { documents := some [], question := some "q", web_search := some false } := rfl

/-- C2 (amended): at every terminal state the flag equals the claimed
disjunction (web branch taken, or at least one document dropped, or zero
retrieval - the last disjunct being vacuous at terminal states, since a run
whose document list is empty can never pass the grounding check); and on an
empty input sequence `grade_documents` reports `web_search = False`. -/
theorem c2_web_search_iff_at_terminal
    (router1 router2 : RouterOracle) (retr : RetrieverOracle) (grader : GraderOracle)
    (tool : Option SearchTool) (chain : GenChain) (hg : HallucinationOracle)
    (fuel n : Nat) (q : String) (final : GraphState)
    (h : runPipeline router1 router2 retr grader tool chain hg fuel q = .ok (some final, n)) :
    (final.web_search = some true ↔
      (executedBranch router2 q = WEBSEARCH ∨
       filterDropped grader q (retrievedDocs retr q) = true ∨
       retrievedDocs retr q = [])) ∧
    (∀ (grader2 : GraderOracle) (s : GraphState) (q2 : String),
      s.question = some q2 → s.documents = some [] →
      grade_documents grader2 s =
        .ok { documents := some [], question := some q2, web_search := some false }) := by
  refine ⟨(runPipeline_terminal h).2.2.2.2.2, ?_⟩
  intro grader2 s q2 hq hd
  simp [grade_documents, hq, hd, gradeLoop]

/-- Fixture: the terminal state of the concrete web-branch run. -/
def finalWeb : GraphState :=
  ⟨some "hello", some "answer", some true, some [⟨"snippet one\nsnippet two", []⟩], none⟩

/-- C2 witness: the amended statement applied to a concrete terminal run and
a concrete empty grading call. -/
theorem c2_web_search_iff_at_terminal_witness :
    ((finalWeb.web_search = some true ↔
      (executedBranch routerWeb "hello" = WEBSEARCH ∨
       filterDropped graderYes "hello" (retrievedDocs retrOne "hello") = true ∨
       retrievedDocs retrOne "hello" = [])) ∧
     grade_documents graderYes (⟨some "qq", none, none, some [], none⟩ : GraphState) =
       .ok { documents := some [], question := some "qq", web_search := some false }) := by
  have h := c2_web_search_iff_at_terminal routerWeb routerWeb retrOne graderYes
    (some toolTwo) chainOk hgTrue 3 1 "hello" finalWeb rfl
  exact ⟨h.1, h.2 graderYes _ "qq" rfl rfl⟩

/-- C3: the claim says `tries` starts at 0 and is incremented by exactly one
on every `generate` invocation.  In the code `tries` is never written at all:
the entry state leaves the channel unset and the dict returned by `generate`
has no `tries` key, so applying it leaves the channel exactly as it was. -/
theorem c3_tries_never_written :
    (∀ q : String, (initState q).tries = none) ∧
    (∀ (chain : GenChain) (s : GraphState) (u : NodeUpdate),
      generate chain s = .ok u → u.tries = none ∧ (applyUpdate s u).tries = s.tries) := by
  refine ⟨fun _ => rfl, fun chain s u h => ?_⟩
  obtain ⟨q, ds, g, hq, hd, hich, rfl⟩ := generate_ok h
  exact ⟨rfl, rfl⟩

/-- Fixture: a state whose `tries` channel already holds 7, to exhibit that
`generate` does not change it. -/
def sTries : GraphState := ⟨some "q", none, none, some [⟨"d", []⟩], some 7⟩

/-- Fixture: the dict `generate` returns on `sTries` with the working
chain. -/
def uGen : NodeUpdate :=
  { documents := some [⟨"d", []⟩], question := some "q", generation := some "answer",
    web_search := some false }

/-- C3 witness: a concrete `generate` call leaving `tries` untouched. -/
theorem c3_tries_never_written_witness :
    (initState "q").tries = none ∧ (uGen.tries = none ∧ (applyUpdate sTries uGen).tries = sTries.tries) :=
  ⟨c3_tries_never_written.1 "q", c3_tries_never_written.2 chainOk sTries uGen rfl⟩

/-- C4 counterexample: with a grader that raises on the first document and
grades the second one relevant, `grade_documents` returns the empty list -
the relevant second document is discarded too, contradicting the claim that
only the erroring document is dropped. -/
theorem c4_single_grader_error_drops_all :
    grade_documents graderBoom
        (⟨some "q", none, none, some [⟨"bad1", []⟩, ⟨"good1", []⟩], none⟩ : GraphState) =
      .ok { documents := some [], question := some "q", web_search := some true } ∧
    graderBoom "q" "good1" = .ok "yes" := by
  constructor
  · simp [grade_documents, gradeLoop, graderBoom]
  · simp [graderBoom]

/-- C4 (amended): a grader error on any individual document aborts the whole
grading loop: every document - including documents already graded relevant
and documents not yet graded - is dropped, the filtered sequence is empty,
and `web_search` is set. -/
theorem c4_grader_error_aborts_grading
    (grader : GraderOracle) (q e : String) (docs : List Document) (s : GraphState)
    (hq : s.question = some q) (hd : s.documents = some docs)
    (hloop : gradeLoop grader q docs = .error e) :
    grade_documents grader s =
      .ok { documents := some [], question := some q, web_search := some true } := by
  simp [grade_documents, hq, hd, hloop]

/-- C4 witness: the amended statement at the concrete erroring grader. -/
theorem c4_grader_error_aborts_grading_witness :
    grade_documents graderBoom
        (⟨some "q2", none, none, some [⟨"bad1", []⟩, ⟨"good1", []⟩], none⟩ : GraphState) =
      .ok { documents := some [], question := some "q2", web_search := some true } :=
  c4_grader_error_aborts_grading graderBoom "q2" "boom" [⟨"bad1", []⟩, ⟨"good1", []⟩]
    _ rfl rfl (by simp [gradeLoop, graderBoom])

/-- C5 counterexample: when the web-search call raises, the node does not
return the existing sequence unmodified - the except branch replaces the
documents with the empty list (the input document is lost). -/
theorem c5_failed_call_clears_documents :
    web_search (some toolDown) sQD =
      .ok { documents := some [], question := some "q", web_search := some true } ∧
    sQD.documents = some [⟨"d", []⟩] := by
  constructor
  · simp [web_search, sQD, toolDown]
  · rfl

/-- C5 (amended): when the tool is unavailable (not built), the node returns
the existing sequence unmodified and sets the flag; when the tool call
raises, the node instead resets the sequence to the empty list, still with
the flag set. -/
theorem c5_web_search_unavailable_vs_failure
    (s : GraphState) (q : String) (hq : s.question = some q) :
    (web_search none s =
      .ok { documents := some (s.documents.getD []), question := some q,
            web_search := some true }) ∧
    (∀ (f : SearchTool) (e : String), f q = .error e →
      web_search (some f) s =
        .ok { documents := some [], question := some q, web_search := some true }) := by
  constructor
  · simp [web_search, hq]
  · intro f e hf
    simp [web_search, hq, hf]

/-- C5 witness: the amended statement at a concrete state with one document
and the concrete failing tool. -/
theorem c5_web_search_unavailable_vs_failure_witness :
    (web_search none sQD =
      .ok { documents := some [⟨"d", []⟩], question := some "q",
            web_search := some true }) ∧
    (web_search (some toolDown) sQD =
      .ok { documents := some [], question := some "q", web_search := some true }) :=
  ⟨(c5_web_search_unavailable_vs_failure sQD "q" rfl).1,
   (c5_web_search_unavailable_vs_failure sQD "q" rfl).2 toolDown "down" rfl⟩

/-- Fixture: the terminal state of the concrete retrieve-branch run. -/
def finalKB : GraphState :=
  ⟨some "hello", some "answer", some false, some [⟨"docA", []⟩], none⟩

/-- C6 counterexample: a concrete terminal run whose final state has no
`tries` entry (the channel was never written, so the returned dict has no
such key), contradicting the claim that the output record contains `tries`;
moreover the dict `{"route": ...}` written by the ROUTE node is dropped
entirely because `route` is not a `GraphState` key, so no `route` value
reaches the caller either. -/
theorem c6_terminal_state_lacks_tries_and_route :
    runPipeline routerKB routerKB retrOne graderYes none chainOk hgTrue 3 "hello" =
      .ok (some finalKB, 1) ∧
    finalKB.tries = none ∧
    applyUpdate (initState "hello") (route_question routerKB (initState "hello")) =
      initState "hello" := by
  refine ⟨?_, rfl, applyUpdate_route_question routerKB (initState "hello")⟩
  rfl

/-- C6 (amended): the state returned at a terminal state contains the
question, a generation, the web_search flag and the documents; it contains no
`tries` value, and no `route` value at all - `route` is not in the
`GraphState` schema, so langgraph drops the `{"route": ...}` update of the
ROUTE node (whose values would anyway be the node names `retrieve` /
`websearch`). -/
theorem c6_terminal_state_fields
    (router1 router2 : RouterOracle) (retr : RetrieverOracle) (grader : GraderOracle)
    (tool : Option SearchTool) (chain : GenChain) (hg : HallucinationOracle)
    (fuel n : Nat) (q : String) (final : GraphState)
    (h : runPipeline router1 router2 retr grader tool chain hg fuel q = .ok (some final, n)) :
    final.question = some q ∧ final.generation.isSome ∧ final.web_search.isSome ∧
    final.documents.isSome ∧ final.tries = none ∧
    (∀ (r : RouterOracle) (s : GraphState), applyUpdate s (route_question r s) = s) := by
  obtain ⟨h1, h2, h3, h4, h5, _⟩ := runPipeline_terminal h
  exact ⟨h1, h2, h5, h3, h4, applyUpdate_route_question⟩

/-- C6 witness: the amended statement at the concrete retrieve-branch run. -/
theorem c6_terminal_state_fields_witness :
    finalKB.question = some "hello" ∧ finalKB.generation.isSome ∧
    finalKB.web_search.isSome ∧ finalKB.documents.isSome ∧ finalKB.tries = none ∧
    applyUpdate sQD (route_question routerWeb sQD) = sQD := by
  obtain ⟨h1, h2, h3, h4, h5, h6⟩ := c6_terminal_state_fields routerKB routerKB retrOne
    graderYes none chainOk hgTrue 3 1 "hello" finalKB rfl
  exact ⟨h1, h2, h3, h4, h5, h6 routerWeb sQD⟩

/-- C7: the claim says an unconfigured generation collaborator makes
`generate` return the fallback string without raising.  In the code
`_get_generation_chain()` returns the bare function `_fallback_answer` when
no API key is set, and `generate` unconditionally calls
`generation_chain.invoke(...)`: a bare function has no `invoke` attribute, so
the call raises AttributeError, which `generate` converts into a raised
RuntimeError - the fallback string is never returned.  The second half of the
claim does hold: a failing runnable chain makes `generate` raise with the
underlying cause attached. -/
theorem c7_unconfigured_generation_raises :
    get_generation_chain none = GenChain.plainFn (fun _ _ => fallbackAnswer) ∧
    generate (get_generation_chain none) sQD =
      .error ("Generation chain failed: AttributeError: function object has no attribute invoke") ∧
    generate (.runnable fun _ _ => .error "boom") sQD =
      .error ("Generation chain failed: boom") :=
  ⟨rfl, rfl, rfl⟩

/-- C8: when the web-search node runs with a question and a tool whose call
succeeds, the snippet contents are joined with a newline into exactly one new
Document, appended after the existing sequence (an absent sequence becomes the
one-element list). -/
theorem c8_web_search_appends_single_document
    (s : GraphState) (q : String) (f : SearchTool) (contents : List String)
    (hq : s.question = some q) (hf : f q = .ok contents) :
    web_search (some f) s =
      .ok { documents := some (s.documents.getD [] ++
              [⟨String.intercalate "\n" contents, []⟩]),
            question := some q, web_search := some true } := by
  cases hd : s.documents with
  | none => simp [web_search, hq, hf, hd]
  | some ds => simp [web_search, hq, hf, hd]

/-- C8 witness: concrete run of the node with one existing document and two
snippets. -/
theorem c8_web_search_appends_single_document_witness :
    web_search (some toolTwo) sQD =
      .ok { documents := some ([⟨"d", []⟩] ++ [⟨"snippet one\nsnippet two", []⟩]),
            question := some "q", web_search := some true } :=
  c8_web_search_appends_single_document sQD "q" toolTwo ["snippet one", "snippet two"]
    rfl rfl

/-- C9: when the grader answers on every document, the filtered sequence is
`docs.filter`: exactly the documents graded relevant, in their original
relative order, and a sublist of the input. -/
theorem c9_filter_order_preserving
    (grader : GraderOracle) (q : String) (docs : List Document) (s : GraphState)
    (hq : s.question = some q) (hd : s.documents = some docs)
    (h : ∀ d ∈ docs, ∃ g, grader q d.page_content = .ok g) :
    grade_documents grader s =
      .ok { documents := some (docs.filter (gradedRelevant grader q)),
            question := some q,
            web_search := some (docs.any (fun d => !gradedRelevant grader q d)) } ∧
    (docs.filter (gradedRelevant grader q)).Sublist docs := by
  refine ⟨?_, List.filter_sublist docs⟩
  simp [grade_documents, hq, hd, gradeLoop_total h]

/-- Fixture: three documents of which the first and third survive grading by
`graderMix`. -/
def docsMix : List Document := [⟨"keep", []⟩, ⟨"drop", []⟩, ⟨"keep", []⟩]

/-- Fixture: a state carrying `docsMix`. -/
def sMix : GraphState := ⟨some "q", none, none, some docsMix, none⟩

/-- C9 witness: the order-preserving filter at a concrete mixed grading. -/
theorem c9_filter_order_preserving_witness :
    grade_documents graderMix sMix =
      .ok { documents := some (docsMix.filter (gradedRelevant graderMix "q")),
            question := some "q",
            web_search := some (docsMix.any (fun d => !gradedRelevant graderMix "q" d)) } ∧
    (docsMix.filter (gradedRelevant graderMix "q")).Sublist docsMix :=
  c9_filter_order_preserving graderMix "q" docsMix sMix rfl rfl
    (by
      intro d hd
      simp only [docsMix, List.mem_cons, List.not_mem_nil, or_false] at hd
      rcases hd with rfl | rfl | rfl
      · exact ⟨"Yes", rfl⟩
      · exact ⟨"no", rfl⟩
      · exact ⟨"Yes", rfl⟩)

/-- C10: the classifier is consulted twice per run: once by the ROUTE node
(`route_question`, which only records its verdict under the dropped `route`
key) and once by the conditional edge (`route_question_conditional`, which
picks the branch).  With one deterministic classifier function the recorded
value and the executed branch agree; two disagreeing responses make them
differ; and the run outcome depends only on the second invocation - the
recorded decision is discarded with the `route` key. -/
theorem c10_classifier_invoked_twice :
    (∀ (f : RouterOracle) (s : GraphState),
      (route_question f s).route = some (route_question_conditional f s)) ∧
    (∃ (r1 r2 : RouterOracle) (s : GraphState),
      (route_question r1 s).route ≠ some (route_question_conditional r2 s)) ∧
    (∀ (r1 r1' r2 : RouterOracle) (retr : RetrieverOracle) (grader : GraderOracle)
       (tool : Option SearchTool) (chain : GenChain) (hg : HallucinationOracle)
       (fuel : Nat) (q : String),
      runPipeline r1 r2 retr grader tool chain hg fuel q =
        runPipeline r1' r2 retr grader tool chain hg fuel q) := by
  refine ⟨?_, ?_, ?_⟩
  · intro f s
    simp only [route_question, route_question_conditional]
    by_cases hc : s.question.getD "" = ""
    · simp [hc]
    · simp only [if_neg hc]
      cases hr : f (s.question.getD "") with
      | ok d => cases d <;> rfl
      | error e => rfl
  · refine ⟨routerKB, routerWeb, sQD, ?_⟩
    simp [route_question, route_question_conditional, routerKB, routerWeb, sQD,
      RETRIEVE, WEBSEARCH]
  · intro r1 r1' r2 retr grader tool chain hg fuel q
    simp only [runPipeline, applyUpdate_route_question]

end ARAG
